import Mathlib

/-!
Verification of the employee-management dashboard frontend.

This file shallowly embeds the parts of the TypeScript source that the
checked properties are about:

* `src/utils/formData.util.ts` — the multipart form-data builder;
* `src/utils/error.util.ts` — the password-strength validators;
* `src/stores/auth.store.ts` — the auth store (session state, OTP
  verification, profile fetch, logout, session restore);
* the router's `beforeEach` navigation guard and its route table;
* the axios response interceptor implementing the single-flight
  token-refresh queue (`isRefreshing` / `failedQueue` / `processQueue`).

JavaScript values that matter to the claims (undefined vs null, File,
arrays, plain objects) are modelled by the inductive `JVal`; FormData is
modelled as the list of appended parts, in order.
-/

/-- A JavaScript value as it can appear in a request payload record. -/
inductive JVal where
  | vStr (s : String)
  | vNum (n : Int)
  | vBool (b : Bool)
  | vFile (fileName : String)
  | vArr (items : List JVal)
  | vObj (fields : List (String × JVal))
  | vUndefined
  | vNull
deriving Repr

/-- One part appended to a FormData object: either a file part or a
string part. -/
inductive FormPart where
  | filePart (key : String) (fileName : String)
  | strPart (key : String) (value : String)
deriving Repr, DecidableEq

mutual

/-- JavaScript `String(v)` coercion, for the values `JVal` models.
Array elements that are null or undefined stringify to the empty
string inside `String(array)`. -/
def jsToString : JVal → String
  | .vStr s => s
  | .vNum n => toString n
  | .vBool b => cond b "true" "false"
  | .vNull => "null"
  | .vUndefined => "undefined"
  | .vFile _ => "[object File]"
  | .vObj _ => "[object Object]"
  | .vArr items => String.intercalate "," (jsArrElemStrings items)

def jsArrElemStrings : List JVal → List String
  | [] => []
  | .vNull :: rest => "" :: jsArrElemStrings rest
  | .vUndefined :: rest => "" :: jsArrElemStrings rest
  | v :: rest => jsToString v :: jsArrElemStrings rest

end

/-- Escape a string for inclusion in a JSON literal (quote and
backslash, the cases that matter here). -/
def jsonEscape (s : String) : String :=
  s.foldl (fun acc c =>
    if c = '\x22' then acc ++ "\\\x22"
    else if c = '\\' then acc ++ "\\\\"
    else acc.push c) ""

def jsonQuote (s : String) : String :=
  "\x22" ++ jsonEscape s ++ "\x22"

mutual

/-- JavaScript `JSON.stringify`: `none` models the `undefined` result
(for a top-level `undefined`); object fields whose value is undefined
are dropped; undefined array elements serialize as `null`. -/
def jsonStringify : JVal → Option String
  | .vStr s => some (jsonQuote s)
  | .vNum n => some (toString n)
  | .vBool b => some (cond b "true" "false")
  | .vNull => some "null"
  | .vUndefined => none
  | .vFile _ => some "\x7b\x7d"
  | .vArr items => some ("[" ++ String.intercalate "," (jsonArrElems items) ++ "]")
  | .vObj fields => some ("\x7b" ++ String.intercalate "," (jsonObjFields fields) ++ "\x7d")

def jsonArrElems : List JVal → List String
  | [] => []
  | v :: rest => ((jsonStringify v).getD "null") :: jsonArrElems rest

def jsonObjFields : List (String × JVal) → List String
  | [] => []
  | (k, v) :: rest =>
    match jsonStringify v with
    | some s => (jsonQuote k ++ ":" ++ s) :: jsonObjFields rest
    | none => jsonObjFields rest

end

/-- The per-element loop of the array branch of
`createFormDataFromPayload` (`value.forEach((item, index) => ...)`):
File items become file parts, other items are coerced with `String`,
keyed `key[index]`. -/
def appendArrayItems (key : String) (idx : Nat) : List JVal → List FormPart
  | [] => []
  | item :: rest =>
    (match item with
     | .vFile name => FormPart.filePart (key ++ "[" ++ toString idx ++ "]") name
     | v => FormPart.strPart (key ++ "[" ++ toString idx ++ "]") (jsToString v))
    :: appendArrayItems key (idx + 1) rest

/-- The body of the `Object.entries(payload).forEach` loop in
`createFormDataFromPayload` (src/utils/formData.util.ts): the parts one
entry contributes.  Undefined and null are skipped; Files are appended
directly; arrays are appended per element; remaining objects are
JSON-stringified; primitives are coerced with `String`. -/
def appendEntry (key : String) (value : JVal) : List FormPart :=
  match value with
  | .vUndefined => []
  | .vNull => []
  | .vFile name => [FormPart.filePart key name]
  | .vArr items => appendArrayItems key 0 items
  | .vObj fields => [FormPart.strPart key ((jsonStringify (JVal.vObj fields)).getD "undefined")]
  | v => [FormPart.strPart key (jsToString v)]

/-- `createFormDataFromPayload` from src/utils/formData.util.ts: the
FormData built from a payload record, as the ordered list of appended
parts. -/
def createFormDataFromPayload (payload : List (String × JVal)) : List FormPart :=
  payload.foldr (fun kv acc => appendEntry kv.1 kv.2 ++ acc) []

/-! ## Password validators (src/utils/error.util.ts) -/

/-- Test for the regex `[A-Z]`. -/
def hasUpperCase (p : String) : Bool :=
  p.toList.any (fun c => 'A' ≤ c && c ≤ 'Z')

/-- Test for the regex `[a-z]`. -/
def hasLowerCase (p : String) : Bool :=
  p.toList.any (fun c => 'a' ≤ c && c ≤ 'z')

/-- Test for the regex `\d`. -/
def hasNumber (p : String) : Bool :=
  p.toList.any (fun c => '0' ≤ c && c ≤ '9')

/-- The special-character class of the source regex. -/
def specialChars : List Char :=
  "!@#$%^&*(),.?\x22:\x7b\x7d|<>".toList

/-- Test for the special-character regex. -/
def hasSpecialChar (p : String) : Bool :=
  p.toList.any (fun c => specialChars.contains c)

/-- `isValidPassword`: at least 8 characters, one uppercase, one
lowercase, one digit, one special character. -/
def isValidPassword (password : String) : Bool :=
  decide (password.length ≥ 8) &&
  hasUpperCase password &&
  hasLowerCase password &&
  hasNumber password &&
  hasSpecialChar password

/-- `getPasswordValidationMessage`: message of the first violated rule,
in the fixed order length, uppercase, lowercase, digit, special;
`none` models the `null` returned for a valid password. -/
def getPasswordValidationMessage (password : String) : Option String :=
  if password.length < 8 then
    some "Password must be at least 8 characters long"
  else if !hasUpperCase password then
    some "Password must contain at least one uppercase letter"
  else if !hasLowerCase password then
    some "Password must contain at least one lowercase letter"
  else if !hasNumber password then
    some "Password must contain at least one number"
  else if !hasSpecialChar password then
    some "Password must contain at least one special character"
  else
    none

/-! ## Auth store (src/stores/auth.store.ts) -/

/-- `Gender` from the type declarations. -/
inductive Gender where
  | male
  | female
  | other
deriving Repr, DecidableEq

/-- `UserRole` from the type declarations. -/
inductive UserRole where
  | admin
  | employee
  | trainee
deriving Repr, DecidableEq

/-- The `User` profile record. -/
structure User where
  id : String
  first_name : String
  last_name : String
  full_name : String
  dob : String
  address : String
  gender : Gender
  nationality : String
  is_suspended : Bool
  role : UserRole
  email : String
  username : String
  phone_number : String
  created_at : String
  updated_at : Option String
deriving Repr, DecidableEq

/-- The `AuthTokens` record returned by the OTP-verification endpoint. -/
structure AuthTokens where
  access_token : String
  refresh_token : String
  token_type : String
  expires_in : Nat
deriving Repr, DecidableEq

/-- What the durable-storage `user` key can hold: the serialization of
an actual profile, or bytes that do not parse as one.  `JSON.parse` of
the former succeeds, of the latter throws. -/
inductive StoredUserEntry where
  | ofUser (u : User)
  | corrupt (raw : String)
deriving Repr, DecidableEq

/-- `JSON.parse` applied to the stored `user` entry: a thrown exception
is modelled as `Except.error`. -/
def parseStoredUser : StoredUserEntry → Except String User
  | .ofUser u => .ok u
  | .corrupt raw => .error raw

/-- Is the stored entry, viewed as the string `localStorage` returns,
truthy in JavaScript?  A serialized profile is a non-empty string. -/
def storedEntryTruthy : StoredUserEntry → Bool
  | .ofUser _ => true
  | .corrupt raw => !raw.isEmpty

/-- JavaScript truthiness of a `localStorage.getItem` result
(`null` and the empty string are falsy). -/
def truthyStr : Option String → Bool
  | some s => !s.isEmpty
  | none => false

/-- The durable client storage keys used by the app:
`access_token`, `refresh_token`, `user`. -/
structure Storage where
  access : Option String
  refresh : Option String
  userEntry : Option StoredUserEntry
deriving Repr, DecidableEq

/-- The auth store's reactive state together with the durable storage
it writes through to. -/
structure AuthModel where
  user : Option User
  accessToken : Option String
  refreshToken : Option String
  isLoading : Bool
  error : Option String
  storage : Storage
deriving Repr, DecidableEq

/-- `isAuthenticated` computed: `!!accessToken.value && !!user.value`.
The access token is a string ref, so `!!` is string truthiness (the
empty string is falsy); the user ref holds an object or null, and an
object is always truthy. -/
def isAuthenticated (m : AuthModel) : Bool :=
  truthyStr m.accessToken && m.user.isSome

/-- `userRole` computed: `user.value?.role || null`. -/
def userRole (m : AuthModel) : Option UserRole :=
  match m.user with
  | some u => some u.role
  | none => none

/-- The store state at store creation, before `initializeAuth` runs,
over given storage contents. -/
def freshAuthModel (st : Storage) : AuthModel :=
  { user := none, accessToken := none, refreshToken := none,
    isLoading := false, error := none, storage := st }

/-- A concrete user profile, for exercising the store operations at
specific inputs. -/
def sampleUser : User :=
  { id := "u1", first_name := "Ada", last_name := "L", full_name := "Ada L",
    dob := "1990-01-01", address := "1 Main St", gender := Gender.female,
    nationality := "KH", is_suspended := false, role := UserRole.employee,
    email := "ada@example.com", username := "ada", phone_number := "+85512345678",
    created_at := "2024-01-01", updated_at := none }

/-- `login` on the success path: it only submits credentials (the
backend answers with a pending-OTP acknowledgement) and touches no
session field; `finally` resets `isLoading`. -/
def loginSuccess (m : AuthModel) : AuthModel :=
  { m with isLoading := false, error := none }

/-- `fetchProfile` on the success path: replaces the user profile
wholesale and writes it through to the `user` storage key. -/
def fetchProfileSuccess (u : User) (m : AuthModel) : AuthModel :=
  { m with user := some u,
           storage := { m.storage with userEntry := some (StoredUserEntry.ofUser u) },
           isLoading := false, error := none }

/-- `verifyOTP` on the success path: stores the tokens in the reactive
refs and in durable storage, then awaits `fetchProfile`. -/
def verifyOTPSuccess (t : AuthTokens) (u : User) (m : AuthModel) : AuthModel :=
  fetchProfileSuccess u
    { m with accessToken := some t.access_token,
             refreshToken := some t.refresh_token,
             storage := { m.storage with access := some t.access_token,
                                         refresh := some t.refresh_token },
             error := none }

/-- The `finally` block of `logout`: clear the three reactive refs and
the three storage keys, reset `isLoading`. -/
def clearSession (m : AuthModel) : AuthModel :=
  { m with user := none, accessToken := none, refreshToken := none,
           storage := { m.storage with access := none, refresh := none, userEntry := none },
           isLoading := false }

/-- `logout` from the auth store, parameterised by the outcome of the
remote `authApi.logout` call.  The `catch` branch only logs; the
`finally` branch clears the local session either way. -/
def logout (remote : Except String Unit) (m : AuthModel) : AuthModel :=
  match remote with
  | .ok _ => clearSession m
  | .error _ => clearSession m

/-- The route names `useAuth` navigates to. -/
inductive RouteName where
  | login
  | dashboard
  | unauthorizedRoute
deriving Repr, DecidableEq

/-- `useAuth().logout`: awaits the store logout (which cannot throw,
its own try/catch/finally swallows remote failures) and pushes the
login route; its `catch` branch would also push the login route. -/
def useAuthLogout (remote : Except String Unit) (m : AuthModel) : AuthModel × RouteName :=
  (logout remote m, RouteName.login)

/-- `initializeAuth`: restore session state from durable storage.  The
result is `Except`-valued so that an exception escaping the function
would show up as `.error`; the only throwing operation, `JSON.parse`,
is wrapped in try/catch whose handler removes the bad `user` entry. -/
def initializeAuth (m : AuthModel) : Except String AuthModel :=
  match m.storage.access, m.storage.refresh, m.storage.userEntry with
  | some a, some r, some su =>
    if a.isEmpty || r.isEmpty || !storedEntryTruthy su then
      Except.ok m
    else
      let m1 := { m with accessToken := some a, refreshToken := some r }
      match parseStoredUser su with
      | .ok u => Except.ok { m1 with user := some u }
      | .error _ =>
        Except.ok { m1 with storage := { m1.storage with userEntry := none } }
  | _, _, _ => Except.ok m

/-- Does an `Except`-valued computation settle without an exception? -/
def settledOk (e : Except String AuthModel) : Bool :=
  match e with
  | .ok _ => true
  | .error _ => false

/-! ## Navigation guard (router `beforeEach`) -/

/-- The `meta` block of a route record.  Routes declared without a
`requiresAuth` or `guestOnly` flag behave as `false` (undefined is
falsy), and without `allowedRoles` as `none`. -/
structure RouteMeta where
  requiresAuth : Bool
  guestOnly : Bool
  allowedRoles : Option (List UserRole)
deriving Repr, DecidableEq

/-- The navigation target handed to the guard. -/
structure RouteTarget where
  name : String
  fullPath : String
  meta : RouteMeta
deriving Repr, DecidableEq

/-- What the guard passes to `next(...)`. -/
inductive NavDecision where
  | redirectLogin (redirectQuery : String)
  | redirectDashboard
  | redirectUnauthorized
  | proceed
deriving Repr, DecidableEq

/-- The router's `beforeEach` guard, reading `isAuthenticated` and
`userRole` from the auth store. -/
def beforeEach (m : AuthModel) (tgt : RouteTarget) : NavDecision :=
  if tgt.meta.requiresAuth && !isAuthenticated m then
    NavDecision.redirectLogin tgt.fullPath
  else if tgt.meta.guestOnly && isAuthenticated m then
    NavDecision.redirectDashboard
  else if tgt.meta.requiresAuth then
    match tgt.meta.allowedRoles with
    | some ar =>
      if ar.length > 0 then
        if (match userRole m with
            | none => true
            | some r => !ar.contains r) then
          NavDecision.redirectUnauthorized
        else
          NavDecision.proceed
      else
        NavDecision.proceed
    | none => NavDecision.proceed
  else
    NavDecision.proceed

/-- Modelled from the spec: the guard rule cascade exactly as the spec
words it — requires-auth and unauthenticated redirects to login with
the destination preserved; guest-only and authenticated redirects to
the dashboard; requires-auth with a declared allowed-roles set whose
membership the current role fails (or the role is absent) redirects to
the unauthorized view; otherwise navigation proceeds. -/
def guardSpecRules (isAuth : Bool) (role : Option UserRole) (tgt : RouteTarget) : NavDecision :=
  if tgt.meta.requiresAuth && !isAuth then
    NavDecision.redirectLogin tgt.fullPath
  else if tgt.meta.guestOnly && isAuth then
    NavDecision.redirectDashboard
  else if tgt.meta.requiresAuth then
    match tgt.meta.allowedRoles with
    | some ar =>
      if (match role with
          | none => true
          | some r => !ar.contains r) then
        NavDecision.redirectUnauthorized
      else
        NavDecision.proceed
    | none => NavDecision.proceed
  else
    NavDecision.proceed

/-- Meta of `/login` and `/verify-otp`. -/
def guestMeta : RouteMeta :=
  { requiresAuth := false, guestOnly := true, allowedRoles := none }

/-- Meta of `/dashboard`, `/users`, `/users/create`, `/users/:id`. -/
def adminMeta : RouteMeta :=
  { requiresAuth := true, guestOnly := false, allowedRoles := some [UserRole.admin] }

/-- Meta of `/profile`. -/
def profileMeta : RouteMeta :=
  { requiresAuth := true, guestOnly := false,
    allowedRoles := some [UserRole.admin, UserRole.employee, UserRole.trainee] }

/-- Meta of routes that declare none (`/`, `/unauthorized`, the
catch-all not-found route). -/
def plainMeta : RouteMeta :=
  { requiresAuth := false, guestOnly := false, allowedRoles := none }

/-- The metas of every route in the routing table, in declaration
order: root redirect, login, verify-otp, dashboard, users,
create-user, user-detail, profile, unauthorized, not-found. -/
def routeMetas : List RouteMeta :=
  [plainMeta, guestMeta, guestMeta, adminMeta, adminMeta, adminMeta,
   adminMeta, profileMeta, plainMeta, plainMeta]

/-! ## The axios response interceptor (single-flight token refresh)

The runtime is single-threaded and cooperative: a 401 handler runs
synchronously from its start to the `await` of the refresh call, so
when N requests all come back 401 while no refresh is in flight, their
handlers run one after another.  `receive401` is one handler's
synchronous prefix; `settleRefresh` is the continuation run when the
in-flight refresh call settles (including `processQueue` and the
retries the resolved queue promises trigger, which read the new access
token from storage). -/

/-- Observable state of the interceptor module plus an event log:
`retried` records each request retried through `apiClient` together
with the bearer token attached by the request interceptor at that
point; `rejectedRefreshErr` and `rejectedOrigErr` record requests
whose promise was rejected with the refresh error respectively with
their own original 401 error; `storageClears` counts executions of the
remove-all-three-keys sequence; `redirects` counts assignments of
`window.location.href = login`. -/
structure RefreshSt where
  isRefreshing : Bool
  failedQueue : List Nat
  access : Option String
  refresh : Option String
  userStr : Option String
  awaiting : Bool
  pendingLeader : Option Nat
  retryMarked : List Nat
  refreshCalls : Nat
  retried : List (Nat × String)
  rejectedRefreshErr : List Nat
  rejectedOrigErr : List Nat
  storageClears : Nat
  redirects : Nat
deriving Repr, DecidableEq

/-- Outcome of the refresh-token call: a successful envelope carrying
fresh tokens, or a failure (network error, non-2xx, or a falsy
`success`/`data` envelope — the `else` branch throws, landing in the
same catch). -/
inductive RefreshOutcome where
  | ok (newAccess newRefresh : String)
  | fail
deriving Repr, DecidableEq

/-- Interceptor state before any 401 arrives, over given storage
contents. -/
def initRefreshSt (acc rt u : Option String) : RefreshSt :=
  { isRefreshing := false, failedQueue := [], access := acc, refresh := rt,
    userStr := u, awaiting := false, pendingLeader := none, retryMarked := [],
    refreshCalls := 0, retried := [], rejectedRefreshErr := [],
    rejectedOrigErr := [], storageClears := 0, redirects := 0 }

/-- The synchronous prefix of the 401 branch of the response
interceptor, run when request `rid` comes back 401 and not yet marked
`_retry`: if a refresh is in flight the request is pushed onto
`failedQueue`; otherwise the handler marks the request, raises
`isRefreshing`, and either issues the refresh call (suspending there)
or — with no refresh token in storage — removes the three storage
keys, redirects to login and rejects with the original error, without
lowering `isRefreshing`. -/
def receive401 (s : RefreshSt) (rid : Nat) : RefreshSt :=
  if s.isRefreshing then
    { s with failedQueue := s.failedQueue ++ [rid] }
  else
    let s1 := { s with retryMarked := s.retryMarked ++ [rid], isRefreshing := true }
    if truthyStr s1.refresh then
      { s1 with awaiting := true, pendingLeader := some rid,
                refreshCalls := s1.refreshCalls + 1 }
    else
      { s1 with access := none, refresh := none, userStr := none,
                storageClears := s1.storageClears + 1,
                redirects := s1.redirects + 1,
                rejectedOrigErr := s1.rejectedOrigErr ++ [rid] }

/-- The continuation after the awaited refresh call settles.  On
success: store both new tokens, `processQueue(null)` (each queued
promise resolves and its continuation re-issues the request through
`apiClient`, whose request interceptor attaches the access token now
in storage), reset the flag, retry the original request.  On failure:
`processQueue(err)` rejects every queued request with the refresh
error, reset the flag, remove the three storage keys, redirect to
login, reject the original request with the refresh error. -/
def settleRefresh (outcome : RefreshOutcome) (s : RefreshSt) : RefreshSt :=
  if s.awaiting then
    let waiters := s.failedQueue ++
      (match s.pendingLeader with | some l => [l] | none => [])
    match outcome with
    | .ok a r =>
      let s1 := { s with access := some a, refresh := some r }
      { s1 with
          retried := s1.retried ++ waiters.map (fun rid => (rid, s1.access.getD "")),
          failedQueue := [], isRefreshing := false, awaiting := false,
          pendingLeader := none }
    | .fail =>
      { s with
          rejectedRefreshErr := s.rejectedRefreshErr ++ waiters,
          failedQueue := [], isRefreshing := false, awaiting := false,
          pendingLeader := none, access := none, refresh := none,
          userStr := none, storageClears := s.storageClears + 1,
          redirects := s.redirects + 1 }
  else s

/-- N requests that each received a 401 while the interceptor is in
state `s`: their handlers run back to back (cooperative scheduling),
then the refresh call — if one was issued — settles with `outcome`. -/
def handleConcurrent401s (reqs : List Nat) (outcome : RefreshOutcome)
    (s : RefreshSt) : RefreshSt :=
  settleRefresh outcome (List.foldl receive401 s reqs)

/-- The key under which a form part was appended. -/
def partKey : FormPart → String
  | .filePart k _ => k
  | .strPart k _ => k

/-! ## Helper lemmas about the interceptor -/

lemma foldl_receive401_of_refreshing (rest : List Nat) :
    ∀ s : RefreshSt, s.isRefreshing = true →
      List.foldl receive401 s rest = { s with failedQueue := s.failedQueue ++ rest } := by
  induction rest with
  | nil => intro s h; simp
  | cons r rest ih =>
    intro s h
    have h1 : receive401 s r = { s with failedQueue := s.failedQueue ++ [r] } := by
      simp [receive401, h]
    rw [List.foldl_cons, h1, ih { s with failedQueue := s.failedQueue ++ [r] } h]
    simp

lemma receive401_start (acc u : Option String) (rt : String)
    (hrt : rt.isEmpty = false) (l : Nat) :
    receive401 (initRefreshSt acc (some rt) u) l =
      { isRefreshing := true, failedQueue := [], access := acc, refresh := some rt,
        userStr := u, awaiting := true, pendingLeader := some l, retryMarked := [l],
        refreshCalls := 1, retried := [], rejectedRefreshErr := [],
        rejectedOrigErr := [], storageClears := 0, redirects := 0 } := by
  simp [receive401, initRefreshSt, truthyStr, hrt]

lemma handle_ok_eq (l : Nat) (rest : List Nat) (acc u : Option String)
    (rt a r : String) (hrt : rt.isEmpty = false) :
    handleConcurrent401s (l :: rest) (RefreshOutcome.ok a r) (initRefreshSt acc (some rt) u) =
      { isRefreshing := false, failedQueue := [], access := some a, refresh := some r,
        userStr := u, awaiting := false, pendingLeader := none, retryMarked := [l],
        refreshCalls := 1, retried := (rest ++ [l]).map (fun rid => (rid, a)),
        rejectedRefreshErr := [], rejectedOrigErr := [],
        storageClears := 0, redirects := 0 } := by
  unfold handleConcurrent401s
  rw [List.foldl_cons, receive401_start acc u rt hrt l,
      foldl_receive401_of_refreshing rest _ rfl]
  simp [settleRefresh]

lemma handle_fail_eq (l : Nat) (rest : List Nat) (acc u : Option String)
    (rt : String) (hrt : rt.isEmpty = false) :
    handleConcurrent401s (l :: rest) RefreshOutcome.fail (initRefreshSt acc (some rt) u) =
      { isRefreshing := false, failedQueue := [], access := none, refresh := none,
        userStr := none, awaiting := false, pendingLeader := none, retryMarked := [l],
        refreshCalls := 1, retried := [], rejectedRefreshErr := rest ++ [l],
        rejectedOrigErr := [], storageClears := 1, redirects := 1 } := by
  unfold handleConcurrent401s
  rw [List.foldl_cons, receive401_start acc u rt hrt l,
      foldl_receive401_of_refreshing rest _ rfl]
  simp [settleRefresh]

lemma handle_norefresh_eq (l : Nat) (rest : List Nat) (acc u : Option String)
    (outcome : RefreshOutcome) :
    handleConcurrent401s (l :: rest) outcome (initRefreshSt acc none u) =
      { isRefreshing := true, failedQueue := rest, access := none, refresh := none,
        userStr := none, awaiting := false, pendingLeader := none, retryMarked := [l],
        refreshCalls := 0, retried := [], rejectedRefreshErr := [],
        rejectedOrigErr := [l], storageClears := 1, redirects := 1 } := by
  unfold handleConcurrent401s
  have h1 : receive401 (initRefreshSt acc none u) l =
      { isRefreshing := true, failedQueue := [], access := none, refresh := none,
        userStr := none, awaiting := false, pendingLeader := none, retryMarked := [l],
        refreshCalls := 0, retried := [], rejectedRefreshErr := [],
        rejectedOrigErr := [l], storageClears := 1, redirects := 1 } := by
    simp [receive401, initRefreshSt, truthyStr]
  rw [List.foldl_cons, h1, foldl_receive401_of_refreshing rest _ rfl]
  simp [settleRefresh]

/-! ## Claim theorems -/

/-- Claim C1: when N requests (a leader and the rest) each receive a
401 while no refresh is in flight and a refresh token is in storage,
exactly one refresh-token call is issued to the backend, and every one
of the N requests is eventually retried carrying the same
newly-refreshed access token (and nothing else is ever retried with a
different token). -/
theorem single_flight_refresh_retries_all (l : Nat) (rest : List Nat)
    (acc u : Option String) (rt a r : String) (hrt : rt.isEmpty = false) :
    (handleConcurrent401s (l :: rest) (RefreshOutcome.ok a r)
      (initRefreshSt acc (some rt) u)).refreshCalls = 1 ∧
    (∀ rid ∈ l :: rest,
      (rid, a) ∈ (handleConcurrent401s (l :: rest) (RefreshOutcome.ok a r)
        (initRefreshSt acc (some rt) u)).retried) ∧
    (∀ p ∈ (handleConcurrent401s (l :: rest) (RefreshOutcome.ok a r)
        (initRefreshSt acc (some rt) u)).retried, p.2 = a) := by
  rw [handle_ok_eq l rest acc u rt a r hrt]
  refine ⟨rfl, ?_, ?_⟩
  · intro rid hrid
    rw [List.mem_cons] at hrid
    apply List.mem_map.mpr
    refine ⟨rid, ?_, rfl⟩
    rcases hrid with rfl | h
    · exact List.mem_append.mpr (Or.inr (List.mem_singleton.mpr rfl))
    · exact List.mem_append.mpr (Or.inl h)
  · intro p hp
    rcases List.mem_map.mp hp with ⟨rid, _, rfl⟩
    rfl

/-- Witness for C1 at a concrete batch of three requests. -/
theorem single_flight_refresh_retries_all_witness :
    (handleConcurrent401s [0, 1, 2] (RefreshOutcome.ok "newA" "newR")
      (initRefreshSt (some "oldA") (some "oldR") none)).refreshCalls = 1 ∧
    ((1, "newA") ∈ (handleConcurrent401s [0, 1, 2] (RefreshOutcome.ok "newA" "newR")
      (initRefreshSt (some "oldA") (some "oldR") none)).retried) :=
  ⟨(single_flight_refresh_retries_all 0 [1, 2] (some "oldA") none "oldR" "newA" "newR" rfl).1,
   (single_flight_refresh_retries_all 0 [1, 2] (some "oldA") none "oldR" "newA" "newR" rfl).2.1
     1 (by decide)⟩

/-- Counterexample to claim C2 as stated: one request receives a 401
while no refresh is in flight and the refresh token is absent from
storage; the handler settles (redirect to login, original error
rejected) yet returns with `isRefreshing` still raised. -/
theorem refresh_flag_not_cleared_counterexample :
    (handleConcurrent401s [0] RefreshOutcome.fail
      (initRefreshSt (some "tok") none (some "usr"))).isRefreshing = true ∧
    (handleConcurrent401s [0] RefreshOutcome.fail
      (initRefreshSt (some "tok") none (some "usr"))).redirects = 1 := by
  constructor <;> rfl

/-- Claim C2, amended: when the refresh cycle settles by success or by
failure of the refresh call, `isRefreshing` is cleared before the
handler returns; but on the path that discovers the refresh token
absent the handler returns with the flag still set (and redirects to
login, which resets the page and with it the module state). -/
theorem refresh_flag_clearing_amended :
    (∀ (l : Nat) (rest : List Nat) (acc u : Option String) (rt : String),
      rt.isEmpty = false → ∀ outcome : RefreshOutcome,
      (handleConcurrent401s (l :: rest) outcome
        (initRefreshSt acc (some rt) u)).isRefreshing = false) ∧
    (∀ (l : Nat) (rest : List Nat) (acc u : Option String) (outcome : RefreshOutcome),
      (handleConcurrent401s (l :: rest) outcome
        (initRefreshSt acc none u)).isRefreshing = true ∧
      (handleConcurrent401s (l :: rest) outcome
        (initRefreshSt acc none u)).redirects = 1) := by
  constructor
  · intro l rest acc u rt hrt outcome
    cases outcome with
    | ok a r => rw [handle_ok_eq l rest acc u rt a r hrt]
    | fail => rw [handle_fail_eq l rest acc u rt hrt]
  · intro l rest acc u outcome
    rw [handle_norefresh_eq l rest acc u outcome]
    exact ⟨rfl, rfl⟩

/-- Witness for the amended C2 at concrete inputs. -/
theorem refresh_flag_clearing_amended_witness :
    (handleConcurrent401s [7] RefreshOutcome.fail
      (initRefreshSt none (some "rr") none)).isRefreshing = false ∧
    (handleConcurrent401s [8, 9] (RefreshOutcome.ok "x" "y")
      (initRefreshSt none none none)).isRefreshing = true :=
  ⟨refresh_flag_clearing_amended.1 7 [] none none "rr" rfl RefreshOutcome.fail,
   (refresh_flag_clearing_amended.2 8 [9] none none (RefreshOutcome.ok "x" "y")).1⟩

/-- Claim C3: if the refresh call fails, every one of the requests
(queued ones and the original) is rejected with the refresh error and
none with its own original error; the three storage keys are cleared
exactly once, leaving no token behind; a single redirect to login
follows; the queue is discarded and the flag lowered. -/
theorem refresh_failure_rejects_and_clears (l : Nat) (rest : List Nat)
    (acc u : Option String) (rt : String) (hrt : rt.isEmpty = false) :
    (∀ rid ∈ l :: rest,
      rid ∈ (handleConcurrent401s (l :: rest) RefreshOutcome.fail
        (initRefreshSt acc (some rt) u)).rejectedRefreshErr) ∧
    (handleConcurrent401s (l :: rest) RefreshOutcome.fail
      (initRefreshSt acc (some rt) u)).rejectedOrigErr = [] ∧
    (handleConcurrent401s (l :: rest) RefreshOutcome.fail
      (initRefreshSt acc (some rt) u)).access = none ∧
    (handleConcurrent401s (l :: rest) RefreshOutcome.fail
      (initRefreshSt acc (some rt) u)).refresh = none ∧
    (handleConcurrent401s (l :: rest) RefreshOutcome.fail
      (initRefreshSt acc (some rt) u)).userStr = none ∧
    (handleConcurrent401s (l :: rest) RefreshOutcome.fail
      (initRefreshSt acc (some rt) u)).storageClears = 1 ∧
    (handleConcurrent401s (l :: rest) RefreshOutcome.fail
      (initRefreshSt acc (some rt) u)).redirects = 1 ∧
    (handleConcurrent401s (l :: rest) RefreshOutcome.fail
      (initRefreshSt acc (some rt) u)).failedQueue = [] := by
  rw [handle_fail_eq l rest acc u rt hrt]
  refine ⟨?_, rfl, rfl, rfl, rfl, rfl, rfl, rfl⟩
  intro rid hrid
  rw [List.mem_cons] at hrid
  rcases hrid with rfl | h
  · exact List.mem_append.mpr (Or.inr (List.mem_singleton.mpr rfl))
  · exact List.mem_append.mpr (Or.inl h)

/-- Witness for C3 at a concrete batch of three requests. -/
theorem refresh_failure_rejects_and_clears_witness :
    (2 ∈ (handleConcurrent401s [0, 1, 2] RefreshOutcome.fail
      (initRefreshSt (some "oldA") (some "oldR") (some "u"))).rejectedRefreshErr) ∧
    (handleConcurrent401s [0, 1, 2] RefreshOutcome.fail
      (initRefreshSt (some "oldA") (some "oldR") (some "u"))).storageClears = 1 :=
  ⟨(refresh_failure_rejects_and_clears 0 [1, 2] (some "oldA") (some "u") "oldR" rfl).1
     2 (by decide),
   (refresh_failure_rejects_and_clears 0 [1, 2] (some "oldA") (some "u") "oldR" rfl).2.2.2.2.2.1⟩

/-- Counterexample to claim C4 as stated: after the login, OTP-verify,
profile-fetch sequence succeeds with a degenerate empty access token,
both the access token and the user profile are non-absent yet
`isAuthenticated` is false — `!!accessToken.value` is string
truthiness, not mere presence. -/
theorem isAuthenticated_empty_token_counterexample :
    isAuthenticated (verifyOTPSuccess (AuthTokens.mk "" "r1" "Bearer" 900)
      sampleUser (loginSuccess (freshAuthModel (Storage.mk none none none)))) = false ∧
    (verifyOTPSuccess (AuthTokens.mk "" "r1" "Bearer" 900)
      sampleUser (loginSuccess (freshAuthModel (Storage.mk none none none)))).accessToken
      ≠ none ∧
    (verifyOTPSuccess (AuthTokens.mk "" "r1" "Bearer" 900)
      sampleUser (loginSuccess (freshAuthModel (Storage.mk none none none)))).user
      ≠ none := by
  refine ⟨by decide, by decide, by decide⟩

/-- Claim C4, amended: in every state of the auth store,
`isAuthenticated` is true iff the access token is non-absent and
non-empty and the user profile is non-absent; in particular it is
false after a restore that loaded only a token, true after the login,
OTP-verify, profile-fetch sequence whenever the issued access token is
non-empty, and false after logout. -/
theorem isAuthenticated_iff_token_and_user :
    (∀ m : AuthModel,
      isAuthenticated m = true ↔
        (m.accessToken ≠ none ∧ m.accessToken ≠ some "" ∧ m.user ≠ none)) ∧
    (∀ a : String,
      initializeAuth (freshAuthModel (Storage.mk (some a) none none)) =
        Except.ok (freshAuthModel (Storage.mk (some a) none none)) ∧
      isAuthenticated (freshAuthModel (Storage.mk (some a) none none)) = false) ∧
    (∀ (t : AuthTokens) (u : User) (m : AuthModel),
      t.access_token ≠ "" →
      isAuthenticated (verifyOTPSuccess t u (loginSuccess m)) = true) ∧
    (∀ (remote : Except String Unit) (m : AuthModel),
      isAuthenticated (logout remote m) = false) := by
  refine ⟨?_, ?_, ?_, ?_⟩
  · intro m
    rcases hat : m.accessToken with _ | s <;> rcases hu : m.user with _ | u <;>
      simp [isAuthenticated, truthyStr, hat, hu, Bool.eq_false_iff,
        String.isEmpty_iff]
  · intro a
    exact ⟨rfl, rfl⟩
  · intro t u m ht
    have hie : t.access_token.isEmpty = false := by
      cases hie : t.access_token.isEmpty
      · rfl
      · exact absurd ((String.isEmpty_iff t.access_token).mp hie) ht
    simp [verifyOTPSuccess, fetchProfileSuccess, loginSuccess, isAuthenticated,
      truthyStr, hie]
  · intro remote m
    cases remote <;> simp [logout, clearSession, isAuthenticated, truthyStr]

/-- Witness for the amended C4 at a concrete non-empty token. -/
theorem isAuthenticated_iff_token_and_user_witness :
    isAuthenticated (verifyOTPSuccess (AuthTokens.mk "at1" "rt1" "Bearer" 900)
      sampleUser (loginSuccess (freshAuthModel (Storage.mk none none none)))) = true :=
  isAuthenticated_iff_token_and_user.2.2.1 (AuthTokens.mk "at1" "rt1" "Bearer" 900)
    sampleUser (loginSuccess (freshAuthModel (Storage.mk none none none))) (by decide)

/-- Claim C6: the session restore run at startup settles without an
exception for every contents of durable storage, and when the stored
profile does not parse the resulting state is unauthenticated with no
user loaded. -/
theorem initializeAuth_total_and_corrupt_safe :
    (∀ m : AuthModel, settledOk (initializeAuth m) = true) ∧
    (∀ a r raw : String, ∀ m' : AuthModel,
      initializeAuth (freshAuthModel
        (Storage.mk (some a) (some r) (some (StoredUserEntry.corrupt raw)))) =
        Except.ok m' →
      isAuthenticated m' = false ∧ m'.user = none) := by
  constructor
  · intro m
    rcases m with ⟨mu, mat, mrt, mil, mer, ⟨sa, sr, su⟩⟩
    rcases sa with _ | a <;> rcases sr with _ | r <;> rcases su with _ | entry <;> try rfl
    simp only [initializeAuth]
    split
    · rfl
    · rcases entry with u | raw <;> rfl
  · intro a r raw m' h
    by_cases hc : (a.isEmpty || r.isEmpty || !storedEntryTruthy (StoredUserEntry.corrupt raw)) = true
    · rw [show initializeAuth (freshAuthModel
          (Storage.mk (some a) (some r) (some (StoredUserEntry.corrupt raw)))) =
          Except.ok (freshAuthModel
            (Storage.mk (some a) (some r) (some (StoredUserEntry.corrupt raw)))) from by
          simp [initializeAuth, freshAuthModel, hc]] at h
      cases h
      exact ⟨rfl, rfl⟩
    · rw [show initializeAuth (freshAuthModel
          (Storage.mk (some a) (some r) (some (StoredUserEntry.corrupt raw)))) =
          Except.ok { user := none, accessToken := some a, refreshToken := some r,
                      isLoading := false, error := none,
                      storage := Storage.mk (some a) (some r) none } from by
          simp [initializeAuth, freshAuthModel, parseStoredUser, hc]] at h
      cases h
      exact ⟨by simp [isAuthenticated], rfl⟩

/-- Witness for C6 on storage holding two tokens and a corrupt
profile entry. -/
theorem initializeAuth_corrupt_safe_witness :
    isAuthenticated { user := none, accessToken := some "t1", refreshToken := some "t2",
                      isLoading := false, error := none,
                      storage := Storage.mk (some "t1") (some "t2") none } = false ∧
    ({ user := none, accessToken := some "t1", refreshToken := some "t2",
       isLoading := false, error := none,
       storage := Storage.mk (some "t1") (some "t2") none } : AuthModel).user = none :=
  initializeAuth_total_and_corrupt_safe.2 "t1" "t2" "not json" _ rfl

/-- Claim C8: logout always clears the local session state (the three
reactive refs and the three durable-storage keys) no matter how the
remote logout call settles, the local result is independent of the
remote outcome, and `useAuth().logout` then navigates to the login
view. -/
theorem logout_clears_locally_regardless :
    ∀ (remote : Except String Unit) (m : AuthModel),
      (logout remote m).user = none ∧
      (logout remote m).accessToken = none ∧
      (logout remote m).refreshToken = none ∧
      (logout remote m).storage.access = none ∧
      (logout remote m).storage.refresh = none ∧
      (logout remote m).storage.userEntry = none ∧
      logout remote m = logout (Except.ok ()) m ∧
      useAuthLogout remote m = (logout remote m, RouteName.login) := by
  intro remote m
  cases remote <;> simp [logout, clearSession, useAuthLogout]

lemma appendArrayItems_keys (key : String) :
    ∀ (items : List JVal) (idx : Nat),
      (appendArrayItems key idx items).map partKey =
        (List.range' idx items.length).map
          (fun j => key ++ "[" ++ toString j ++ "]")
  | [], _ => rfl
  | item :: rest, idx => by
    have ih := appendArrayItems_keys key rest (idx + 1)
    cases item <;> simp [appendArrayItems, partKey, List.range', ih]

/-- Claim C7: the multipart builder appends every defined
(non-undefined, non-null) field as a part or parts — primitives,
Files and plain objects each as exactly one part under the field's
key, plain objects serialized to a single JSON string, arrays as one
part per element keyed `key[index]` — and omits undefined fields
entirely; the payload of the spec's example yields exactly the parts
`name`, `photo`, `tags[0]`, `tags[1]` and omits `meta`. -/
theorem createFormData_encoding_rules :
    createFormDataFromPayload
      [("name", JVal.vStr "A"), ("photo", JVal.vFile "p.png"),
       ("tags", JVal.vArr [JVal.vStr "x", JVal.vStr "y"]),
       ("meta", JVal.vUndefined)] =
      [FormPart.strPart "name" "A", FormPart.filePart "photo" "p.png",
       FormPart.strPart "tags[0]" "x", FormPart.strPart "tags[1]" "y"] ∧
    (∀ key : String, appendEntry key JVal.vUndefined = []) ∧
    (∀ key s, appendEntry key (JVal.vStr s) = [FormPart.strPart key s]) ∧
    (∀ key n, appendEntry key (JVal.vNum n) =
      [FormPart.strPart key (toString n)]) ∧
    (∀ key b, appendEntry key (JVal.vBool b) =
      [FormPart.strPart key (cond b "true" "false")]) ∧
    (∀ key f, appendEntry key (JVal.vFile f) = [FormPart.filePart key f]) ∧
    (∀ key fields, appendEntry key (JVal.vObj fields) =
      [FormPart.strPart key
        ((jsonStringify (JVal.vObj fields)).getD "undefined")]) ∧
    (∀ key items, (appendEntry key (JVal.vArr items)).length = items.length) ∧
    (∀ key items, (appendEntry key (JVal.vArr items)).map partKey =
      (List.range' 0 items.length).map
        (fun j => key ++ "[" ++ toString j ++ "]")) ∧
    (∀ (payload : List (String × JVal)) (key : String) (v : JVal),
      createFormDataFromPayload ((key, v) :: payload) =
        appendEntry key v ++ createFormDataFromPayload payload) := by
  refine ⟨by decide, fun _ => rfl, fun _ _ => rfl, fun _ _ => rfl, fun _ _ => rfl,
    fun _ _ => rfl, fun _ _ => rfl, ?_, ?_, fun _ _ _ => rfl⟩
  · intro key items
    have h := appendArrayItems_keys key items 0
    have := congrArg List.length h
    simpa [appendEntry] using this
  · intro key items
    exact appendArrayItems_keys key items 0

/-- Claim C10: a field whose value is null contributes no form part at
all — exactly as an undefined field — neither as an empty part nor as
the string rendering of null. -/
theorem null_fields_omitted :
    (∀ key : String, appendEntry key JVal.vNull = []) ∧
    (∀ key : String, appendEntry key JVal.vNull = appendEntry key JVal.vUndefined) ∧
    createFormDataFromPayload [("meta", JVal.vNull)] = [] ∧
    (∀ (key : String) (payload : List (String × JVal)),
      createFormDataFromPayload ((key, JVal.vNull) :: payload) =
        createFormDataFromPayload payload) :=
  ⟨fun _ => rfl, fun _ => rfl, rfl, fun _ _ => rfl⟩

/-- Claim C5: for every navigation attempt in this app — any route of
the routing table as target, any auth-store state — the guard decides
exactly as the spec's ordered rule cascade: requires-auth and
unauthenticated redirects to login carrying the intended destination,
guest-only and authenticated redirects to the dashboard, a declared
allowed-roles set not containing the current role (or no role)
redirects to the unauthorized view, and otherwise navigation
proceeds. -/
theorem beforeEach_matches_guard_rules :
    ∀ meta ∈ routeMetas, ∀ (m : AuthModel) (nm path : String),
      beforeEach m (RouteTarget.mk nm path meta) =
        guardSpecRules (isAuthenticated m) (userRole m)
          (RouteTarget.mk nm path meta) := by
  intro meta hmem m nm path
  fin_cases hmem <;>
    cases hA : isAuthenticated m <;>
    rcases hR : userRole m with _ | r <;>
    (try cases r) <;>
    simp [beforeEach, guardSpecRules, plainMeta, guestMeta, adminMeta,
      profileMeta, hA, hR]

/-- Witness for C5: an unauthenticated attempt at the admin dashboard,
checked against the spec cascade. -/
theorem beforeEach_matches_guard_rules_witness :
    beforeEach (freshAuthModel (Storage.mk none none none))
        (RouteTarget.mk "dashboard" "/dashboard" adminMeta) =
      guardSpecRules
        (isAuthenticated (freshAuthModel (Storage.mk none none none)))
        (userRole (freshAuthModel (Storage.mk none none none)))
        (RouteTarget.mk "dashboard" "/dashboard" adminMeta) :=
  beforeEach_matches_guard_rules adminMeta (by decide)
    (freshAuthModel (Storage.mk none none none)) "dashboard" "/dashboard"

/-- Claim C9: the password validator accepts the spec's accepted
example and rejects the all-lowercase example with the
missing-uppercase message (the first violated rule in the fixed
order), and in general the validator accepts exactly the passwords for
which the message function reports no violation. -/
theorem password_validator_cases :
    isValidPassword "Abcdef1!" = true ∧
    isValidPassword "abcdefgh" = false ∧
    getPasswordValidationMessage "abcdefgh" =
      some "Password must contain at least one uppercase letter" ∧
    (∀ p : String,
      isValidPassword p = true ↔ getPasswordValidationMessage p = none) := by
  refine ⟨by decide, by decide, by decide, ?_⟩
  intro p
  rcases Nat.lt_or_ge p.length 8 with hlen | hlen <;>
    cases hup : hasUpperCase p <;>
    cases hlo : hasLowerCase p <;>
    cases hnum : hasNumber p <;>
    cases hsp : hasSpecialChar p <;>
    simp [isValidPassword, getPasswordValidationMessage, hup, hlo, hnum, hsp,
      hlen, Nat.not_lt.mpr hlen, Nat.not_le.mpr hlen]
